import Mathlib

/-!
# Verification of the tone/overlay rendering core (rpg_core.js excerpt)

Shallow embedding of three components of the repository:

* `ToneFilter` (src/js/Debug/R0_Tone.js): a 4x4 color matrix with
  `adjustHue` / `adjustSaturation` / `adjustTone` adjustments composed via
  `_multiplyMatrix`.  JS numbers are modelled as real numbers; the flat
  row-major 16-element array `value` is modelled as `Matrix (Fin 4) (Fin 4) ℝ`
  with `value[i*4+j]` corresponding to entry `(i, j)`.
* `ToneSprite` (same file): integer tone state plus the `_renderCanvas`
  fallback compositing pass, modelled as an explicit canvas-state machine
  that records every `fillRect` together with the composite operation,
  global alpha and fill style in effect when it was issued.
* `ScreenSprite` (src/js/Debug/R0_ScreenSprite.js): the flat-color overlay
  with its `setColor` change-detection cache; repaint requests
  (`_bitmap.fillAll`) are counted in the state.

Utility functions (`Number.prototype.clamp`, `Math.round`,
`Utils.rgbToCssColor`) come from src/unnamed/part_000 (rpg_core.js
prologue).  `x || 0` in JS is the identity on non-NaN numbers and maps a
missing (`undefined`) argument to `0`; arguments that the spec allows to be
missing are modelled as `Option ℚ` with `Option.getD 0`.
-/

namespace Infernals

/-! ## JS numeric utilities (src/unnamed/part_000) -/

/-- `Number.prototype.clamp` on real numbers:
`Math.min(Math.max(this, min), max)`. -/
def jsClamp (x lo hi : ℝ) : ℝ :=
  min (max x lo) hi

/-- `Number.prototype.clamp` on integers (used after `Math.round`, where the
value and both bounds are integers). -/
def jsClampZ (x lo hi : ℤ) : ℤ :=
  min (max x lo) hi

/-- `Math.round` on rational inputs: JS rounds half-up, i.e. `⌊x + 1/2⌋`. -/
def jsRound (x : ℚ) : ℤ :=
  ⌊x + 1 / 2⌋

/-- `Utils.rgbToCssColor(r, g, b)`: rounds each channel and produces the
string `rgb(R,G,B)`. -/
def rgbToCssColor (r g b : ℚ) : String :=
  "rgb(" ++ toString (jsRound r) ++ "," ++ toString (jsRound g) ++ ","
    ++ toString (jsRound b) ++ ")"

/-! ## ToneFilter (src/js/Debug/R0_Tone.js, lines 16-151) -/

/-- The `uniforms.matrix.value` array, row-major: `value[i*4+j]` is entry
`(i, j)`. -/
abbrev Mat4 : Type := Matrix (Fin 4) (Fin 4) ℝ

namespace ToneFilter

/- JS numbers here carry `Math.cos`/`Math.sin` values, so this section is
stated over `ℝ` and is necessarily noncomputable; concrete instances are
evaluated in proofs with `norm_num`. -/
noncomputable section

/-- The initial (and reset) matrix `[1,0,0,0, 0,1,0,0, 0,0,1,0, 0,0,0,1]`. -/
def identityValue : Mat4 :=
  !![1, 0, 0, 0;
     0, 1, 0, 0;
     0, 0, 1, 0;
     0, 0, 0, 1]

/-- `ToneFilter.prototype._multiplyMatrix(matrix)`: for each row `i`, the
current row is copied to `temp` and then
`value[i*4+j] = Σ_n matrix[n*4+j] * temp[n]`.  The first argument is the
incoming `matrix` parameter, the second the stored `value`. -/
def multiplyMatrix (matrix value : Mat4) : Mat4 :=
  Matrix.of fun i j => ∑ n : Fin 4, matrix n j * value i n

/-- The hue-rotation matrix built inside `adjustHue` from
`c = Math.cos(value * π)` and `s = Math.sin(value * π)`. -/
def hueMatrix (c s : ℝ) : Mat4 :=
  !![0.213 + c * 0.787 - s * 0.213, 0.715 - c * 0.715 - s * 0.715,
       0.072 - c * 0.072 + s * 0.928, 0;
     0.213 - c * 0.213 + s * 0.143, 0.715 + c * 0.285 + s * 0.140,
       0.072 - c * 0.072 - s * 0.283, 0;
     0.213 - c * 0.213 - s * 0.787, 0.715 - c * 0.715 + s * 0.715,
       0.072 + c * 0.928 + s * 0.072, 0;
     0, 0, 0, 1]

/-- `ToneFilter.prototype.adjustHue(value)`: divides by 180 and, when the
result is nonzero, composes the hue-rotation matrix into the stored value. -/
def adjustHue (value : ℝ) (M : Mat4) : Mat4 :=
  let v := value / 180
  if v ≠ 0 then
    multiplyMatrix (hueMatrix (Real.cos (v * Real.pi)) (Real.sin (v * Real.pi))) M
  else M

/-- The saturation matrix built inside `adjustSaturation` from `a = 1 + value`. -/
def saturationMatrix (a : ℝ) : Mat4 :=
  !![0.213 + 0.787 * a, 0.715 - 0.715 * a, 0.072 - 0.072 * a, 0;
     0.213 - 0.213 * a, 0.715 + 0.285 * a, 0.072 - 0.072 * a, 0;
     0.213 - 0.213 * a, 0.715 - 0.715 * a, 0.072 + 0.928 * a, 0;
     0, 0, 0, 1]

/-- `ToneFilter.prototype.adjustSaturation(value)`: clamps to `[-255, 255]`,
normalizes by 255 and, when nonzero, composes the saturation matrix. -/
def adjustSaturation (value : ℝ) (M : Mat4) : Mat4 :=
  let v := jsClamp value (-255) 255 / 255
  if v ≠ 0 then multiplyMatrix (saturationMatrix (1 + v)) M else M

/-- The additive tone matrix built inside `adjustTone` (offsets in the 4th
column of the row-major array). -/
def toneMatrix (r g b : ℝ) : Mat4 :=
  !![1, 0, 0, r;
     0, 1, 0, g;
     0, 0, 1, b;
     0, 0, 0, 1]

/-- `ToneFilter.prototype.adjustTone(r, g, b)`: clamps each channel to
`[-255, 255]`, normalizes by 255 and, when any is nonzero, composes the
additive tone matrix. -/
def adjustTone (r g b : ℝ) (M : Mat4) : Mat4 :=
  let r' := jsClamp r (-255) 255 / 255
  let g' := jsClamp g (-255) 255 / 255
  let b' := jsClamp b (-255) 255 / 255
  if r' ≠ 0 ∨ g' ≠ 0 ∨ b' ≠ 0 then multiplyMatrix (toneMatrix r' g' b') M else M

/-- One adjustment call on a `ToneFilter`. -/
inductive Adjustment : Type
  | hue (value : ℝ)
  | saturation (value : ℝ)
  | tone (r g b : ℝ)

/-- Apply one adjustment call to the stored matrix. -/
def applyAdjustment (op : Adjustment) (M : Mat4) : Mat4 :=
  match op with
  | .hue v => adjustHue v M
  | .saturation v => adjustSaturation v M
  | .tone r g b => adjustTone r g b M

/-- Apply a sequence of adjustment calls, oldest first. -/
def applyAdjustments (ops : List Adjustment) (M : Mat4) : Mat4 :=
  ops.foldl (fun acc op => applyAdjustment op acc) M

/-- The 4th row of the row-major value array is `[0, 0, 0, 1]`. -/
def rowFourIdentity (M : Mat4) : Prop :=
  M 3 0 = 0 ∧ M 3 1 = 0 ∧ M 3 2 = 0 ∧ M 3 3 = 1

/-- The 4th column of the row-major value array is `[0, 0, 0, 1]`. -/
def colFourIdentity (M : Mat4) : Prop :=
  M 0 3 = 0 ∧ M 1 3 = 0 ∧ M 2 3 = 0 ∧ M 3 3 = 1

/-- Whether an adjustment call is `adjustHue` or `adjustSaturation`
(as opposed to `adjustTone`). -/
def Adjustment.isHueOrSaturation : Adjustment → Bool
  | .hue _ => true
  | .saturation _ => true
  | .tone _ _ _ => false

/-- `I₃ - P` (zero-padded to 4x4), where `P` is the luma projection with the
source's weights `0.213 / 0.715 / 0.072`.  Used to express the hue
round-trip deviation exactly. -/
def lumaComplement : Mat4 :=
  !![787/1000, -715/1000, -72/1000, 0;
     -213/1000, 285/1000, -72/1000, 0;
     -213/1000, -715/1000, 928/1000, 0;
     0, 0, 0, 0]

/-- The exact symmetric deviation matrix of the hue rotation constants:
`(I₃ - P) + R²` where `R` is the sine-coefficient matrix of `hueMatrix`.
It would be zero if the 3-decimal constants were exact. -/
def hueDeviationSym : Mat4 :=
  !![-53/250000, 143/200000, -503/1000000, 0;
     -359/500000, 1/100000, 177/250000, 0;
     53/250000, -143/200000, 503/1000000, 0;
     0, 0, 0, 0]

/-- The exact skew deviation matrix `P * R` of the hue rotation constants
(also zero for exact constants). -/
def hueDeviationSkew : Mat4 :=
  !![53/250000, -143/200000, 503/1000000, 0;
     53/250000, -143/200000, 503/1000000, 0;
     53/250000, -143/200000, 503/1000000, 0;
     0, 0, 0, 0]

end

end ToneFilter

/-! ## ScreenSprite (src/js/Debug/R0_ScreenSprite.js) -/

/-- The observable state of a `ScreenSprite`: the three stored channels
(`_red`, `_green`, `_blue`, JS numbers), the cached color string
(`_colorText`), and a counter of repaint requests issued to the external
bitmap-fill collaborator (`this._bitmap.fillAll`). -/
structure ScreenSpriteState where
  red : ℚ
  green : ℚ
  blue : ℚ
  colorText : String
  fillCount : ℕ
  deriving DecidableEq, Repr

namespace ScreenSprite

/-- `ScreenSprite.prototype.setColor(r, g, b)`: when any raw argument differs
from the stored channel, round-and-clamp each channel to `[0, 255]`, store,
regenerate the cached color string and request a repaint; otherwise do
nothing. -/
def setColor (st : ScreenSpriteState) (r g b : ℚ) : ScreenSpriteState :=
  if st.red ≠ r ∨ st.green ≠ g ∨ st.blue ≠ b then
    let r' : ℚ := (jsClampZ (jsRound r) 0 255 : ℤ)
    let g' : ℚ := (jsClampZ (jsRound g) 0 255 : ℤ)
    let b' : ℚ := (jsClampZ (jsRound b) 0 255 : ℤ)
    { red := r', green := g', blue := b',
      colorText := rgbToCssColor r' g' b',
      fillCount := st.fillCount + 1 }
  else st

/-- `ScreenSprite.prototype.setBlack()`. -/
def setBlack (st : ScreenSpriteState) : ScreenSpriteState :=
  setColor st 0 0 0

/-- `ScreenSprite.prototype.setWhite()`. -/
def setWhite (st : ScreenSpriteState) : ScreenSpriteState :=
  setColor st 255 255 255

/-- `ScreenSprite.prototype.initialize()` restricted to the modelled fields:
channels start at `-1`, the cached string empty, then `setBlack()` runs. -/
def initialState : ScreenSpriteState :=
  setBlack { red := -1, green := -1, blue := -1, colorText := "", fillCount := 0 }

end ScreenSprite

/-! ## ToneSprite (src/js/Debug/R0_Tone.js, lines 160-247) -/

/-- The `worldTransform` supplied by the scene graph (`t.a .. t.ty`). -/
structure WorldTransform where
  a : ℚ
  b : ℚ
  c : ℚ
  d : ℚ
  tx : ℚ
  ty : ℚ
  deriving DecidableEq, Repr

/-- Observable `ToneSprite` state: the four stored tone integers and the
`visible` flag and `worldTransform` consulted by `_renderCanvas`. -/
structure ToneSpriteState where
  red : ℤ
  green : ℤ
  blue : ℤ
  gray : ℤ
  visible : Bool
  worldTransform : WorldTransform
  deriving DecidableEq, Repr

/-- Ambient drawing state of a canvas 2D context: the fields `_renderCanvas`
touches (`setTransform`, `globalAlpha`, `globalCompositeOperation`,
`fillStyle`). -/
structure CanvasContextState where
  transform : ℚ × ℚ × ℚ × ℚ × ℚ × ℚ
  globalAlpha : ℚ
  globalCompositeOperation : String
  fillStyle : String
  deriving DecidableEq, Repr

/-- One `fillRect` call as issued: the composite operation, alpha and fill
style in effect, plus the rectangle. -/
structure FillRectCall where
  op : String
  alpha : ℚ
  style : String
  x : ℚ
  y : ℚ
  width : ℚ
  height : ℚ
  deriving DecidableEq, Repr

/-- A canvas 2D context: current ambient state, the save/restore stack, and
the recorded `fillRect` calls (the mutations of the pixel buffer). -/
structure Canvas where
  ctx : CanvasContextState
  stack : List CanvasContextState
  fills : List FillRectCall
  deriving DecidableEq, Repr

namespace Canvas

/-- `context.save()`. -/
def save (c : Canvas) : Canvas :=
  { c with stack := c.ctx :: c.stack }

/-- `context.restore()`: reinstates the most recently saved ambient state
(no-op on an empty stack, as in the HTML canvas API). -/
def restore (c : Canvas) : Canvas :=
  match c.stack with
  | [] => c
  | s :: rest => { c with ctx := s, stack := rest }

/-- `context.setTransform(a, b, c, d, tx, ty)`. -/
def setTransform (c : Canvas) (a b c' d tx ty : ℚ) : Canvas :=
  { c with ctx := { c.ctx with transform := (a, b, c', d, tx, ty) } }

/-- `context.globalAlpha = v`. -/
def setGlobalAlpha (c : Canvas) (v : ℚ) : Canvas :=
  { c with ctx := { c.ctx with globalAlpha := v } }

/-- `context.globalCompositeOperation = op`. -/
def setCompositeOperation (c : Canvas) (op : String) : Canvas :=
  { c with ctx := { c.ctx with globalCompositeOperation := op } }

/-- `context.fillStyle = s`. -/
def setFillStyle (c : Canvas) (s : String) : Canvas :=
  { c with ctx := { c.ctx with fillStyle := s } }

/-- `context.fillRect(x, y, w, h)`: records a pixel-buffer mutation under the
current ambient state. -/
def fillRect (c : Canvas) (x y w h : ℚ) : Canvas :=
  { c with fills := c.fills ++
      [{ op := c.ctx.globalCompositeOperation, alpha := c.ctx.globalAlpha,
         style := c.ctx.fillStyle, x := x, y := y, width := w, height := h }] }

end Canvas

/-- The external collaborators `_renderCanvas` reads: `renderSession.resolution`,
`Graphics.width/height`, and the two blend-capability flags. -/
structure RenderEnv where
  resolution : ℚ
  width : ℚ
  height : ℚ
  canUseSaturationBlend : Bool
  canUseDifferenceBlend : Bool
  deriving DecidableEq, Repr

namespace ToneSprite

/-- `ToneSprite.prototype.clear()`. -/
def clear (sp : ToneSpriteState) : ToneSpriteState :=
  { sp with red := 0, green := 0, blue := 0, gray := 0 }

/-- `ToneSprite.prototype.setTone(r, g, b, gray)`: each argument may be
missing (`undefined`, modelled as `none`; `x || 0` is `Option.getD 0`),
is rounded, and clamped — `[-255, 255]` for the channels, `[0, 255]` for
gray. -/
def setTone (sp : ToneSpriteState) (r g b gray : Option ℚ) : ToneSpriteState :=
  { sp with
    red := jsClampZ (jsRound (r.getD 0)) (-255) 255,
    green := jsClampZ (jsRound (g.getD 0)) (-255) 255,
    blue := jsClampZ (jsRound (b.getD 0)) (-255) 255,
    gray := jsClampZ (jsRound (gray.getD 0)) 0 255 }

/-- The first conditional block of `_renderCanvas` (saturation blend,
R0_Tone.js lines 213-218): when the saturation blend is available and
`this._gray > 0`, fill the screen white with the saturation composite
operation at alpha `gray / 255`. -/
def saturationPass (env : RenderEnv) (sp : ToneSpriteState) (c : Canvas) :
    Canvas :=
  if env.canUseSaturationBlend ∧ 0 < sp.gray then
    (((c.setCompositeOperation "saturation").setGlobalAlpha
        ((sp.gray : ℚ) / 255)).setFillStyle "#ffffff").fillRect 0 0 env.width
      env.height
  else c

/-- The second conditional block of `_renderCanvas` (positive tone,
lines 220-227): `r1 = max(0, red)` etc.; when any is nonzero
(JS truthiness of `r1 || g1 || b1`), fill with the lighter composite
operation. -/
def lighterPass (env : RenderEnv) (sp : ToneSpriteState) (c : Canvas) :
    Canvas :=
  let r1 := max 0 sp.red
  let g1 := max 0 sp.green
  let b1 := max 0 sp.blue
  if r1 ≠ 0 ∨ g1 ≠ 0 ∨ b1 ≠ 0 then
    ((c.setCompositeOperation "lighter").setFillStyle
        (rgbToCssColor (r1 : ℚ) (g1 : ℚ) (b1 : ℚ))).fillRect 0 0 env.width
      env.height
  else c

/-- The third conditional block of `_renderCanvas` (negative tone,
lines 228-243): when the difference blend is available and any of
`r2 = max(0, -red)` etc. is nonzero, the white-difference / color-lighter /
white-difference fill triple. -/
def differencePass (env : RenderEnv) (sp : ToneSpriteState) (c : Canvas) :
    Canvas :=
  if env.canUseDifferenceBlend then
    let r2 := max 0 (-sp.red)
    let g2 := max 0 (-sp.green)
    let b2 := max 0 (-sp.blue)
    if r2 ≠ 0 ∨ g2 ≠ 0 ∨ b2 ≠ 0 then
      ((((((((c.setCompositeOperation "difference").setFillStyle
          "#ffffff").fillRect 0 0 env.width env.height).setCompositeOperation
          "lighter").setFillStyle
          (rgbToCssColor (r2 : ℚ) (g2 : ℚ) (b2 : ℚ))).fillRect 0 0 env.width
          env.height).setCompositeOperation "difference").setFillStyle
          "#ffffff").fillRect 0 0 env.width env.height
    else c
  else c

/-- `ToneSprite.prototype._renderCanvas(renderSession)`: when visible, save
the context, set the transform, run the saturation block, reset
`globalAlpha` to 1, run the positive-tone and negative-tone blocks, and
restore the context.  The three blocks are the named passes above, in
source order. -/
def renderCanvas (env : RenderEnv) (sp : ToneSpriteState) (canvas : Canvas) :
    Canvas :=
  if sp.visible then
    let t := sp.worldTransform
    let r := env.resolution
    (differencePass env sp
      (lighterPass env sp
        ((saturationPass env sp
          ((canvas.save).setTransform t.a t.b t.c t.d (t.tx * r)
            (t.ty * r))).setGlobalAlpha 1))).restore
  else canvas

end ToneSprite

/-!
## Theorems

Shared helper lemmas first, then one theorem per claim (with witnesses or
counterexamples where required).
-/

namespace ToneFilter

/-- The loop in `_multiplyMatrix` computes the row-major matrix product
`current × incoming`: the stored `value` is on the left, the incoming
adjustment matrix on the right. -/
theorem multiplyMatrix_eq_mul (A M : Mat4) : multiplyMatrix A M = M * A := by
  ext i j
  simp only [multiplyMatrix, Matrix.of_apply, Matrix.mul_apply]
  exact Finset.sum_congr rfl fun n _ => mul_comm _ _

/-- The initial value array is the identity matrix. -/
theorem identityValue_eq_one : identityValue = (1 : Mat4) := by
  ext i j
  fin_cases i <;> fin_cases j <;>
    simp [identityValue, Matrix.one_apply, Matrix.vecHead, Matrix.vecTail]

/-- Tone matrices compose additively. -/
theorem toneMatrix_mul (x y z x' y' z' : ℝ) :
    toneMatrix x y z * toneMatrix x' y' z' =
      toneMatrix (x + x') (y + y') (z + z') := by
  ext i j
  fin_cases i <;> fin_cases j <;>
    simp [Matrix.mul_apply, Fin.sum_univ_four, toneMatrix, Matrix.vecHead,
      Matrix.vecTail] <;> ring

/-- The zero tone matrix is the identity. -/
theorem toneMatrix_zero : toneMatrix 0 0 0 = (1 : Mat4) := by
  ext i j
  fin_cases i <;> fin_cases j <;>
    simp [toneMatrix, Matrix.one_apply, Matrix.vecHead, Matrix.vecTail]

/-- Clamping to `[-255, 255]` is the identity on that interval. -/
theorem jsClamp_eq_self {x : ℝ} (h₁ : -255 ≤ x) (h₂ : x ≤ 255) :
    jsClamp x (-255) 255 = x := by
  simp [jsClamp, max_eq_left h₁, min_eq_left h₂]

set_option maxHeartbeats 1000000 in
/-- Exact closed form of the hue round-trip: composing the hue matrix for
`(c, s)` with the one for `(c, -s)` through `_multiplyMatrix` deviates from
the identity by the two explicit deviation matrices (a pure polynomial
identity in `c` and `s`). -/
theorem hueMatrix_roundtrip_decomp (c s : ℝ) :
    multiplyMatrix (hueMatrix c (-s)) (hueMatrix c s) =
      identityValue + (c ^ 2 + s ^ 2 - 1) • lumaComplement
        + (-(s ^ 2)) • hueDeviationSym + (s * c - s) • hueDeviationSkew := by
  ext i j
  fin_cases i <;> fin_cases j <;>
    simp [multiplyMatrix, hueMatrix, identityValue, lumaComplement,
      hueDeviationSym, hueDeviationSkew, Fin.sum_univ_four, Matrix.add_apply,
      Matrix.smul_apply, smul_eq_mul, Matrix.vecHead, Matrix.vecTail] <;> ring

/-- The hue rotation matrix has 4th row `[0, 0, 0, 1]`. -/
theorem hueMatrix_rowFour (c s : ℝ) : rowFourIdentity (hueMatrix c s) := by
  refine ⟨?_, ?_, ?_, ?_⟩ <;>
    simp [hueMatrix, rowFourIdentity, Matrix.cons_val_two, Matrix.cons_val_three,
      Matrix.vecHead, Matrix.vecTail]

/-- The hue rotation matrix has 4th column `[0, 0, 0, 1]`. -/
theorem hueMatrix_colFour (c s : ℝ) : colFourIdentity (hueMatrix c s) := by
  refine ⟨?_, ?_, ?_, ?_⟩ <;>
    simp [hueMatrix, colFourIdentity, Matrix.cons_val_two, Matrix.cons_val_three,
      Matrix.vecHead, Matrix.vecTail]

/-- The saturation matrix has 4th row `[0, 0, 0, 1]`. -/
theorem saturationMatrix_rowFour (a : ℝ) : rowFourIdentity (saturationMatrix a) := by
  refine ⟨?_, ?_, ?_, ?_⟩ <;>
    simp [saturationMatrix, Matrix.cons_val_two, Matrix.cons_val_three,
      Matrix.vecHead, Matrix.vecTail]

/-- The saturation matrix has 4th column `[0, 0, 0, 1]`. -/
theorem saturationMatrix_colFour (a : ℝ) : colFourIdentity (saturationMatrix a) := by
  refine ⟨?_, ?_, ?_, ?_⟩ <;>
    simp [saturationMatrix, Matrix.cons_val_two, Matrix.cons_val_three,
      Matrix.vecHead, Matrix.vecTail]

/-- The additive tone matrix has 4th row `[0, 0, 0, 1]` (its 4th column
carries the offsets instead). -/
theorem toneMatrix_rowFour (r g b : ℝ) : rowFourIdentity (toneMatrix r g b) := by
  refine ⟨?_, ?_, ?_, ?_⟩ <;>
    simp [toneMatrix, Matrix.cons_val_two, Matrix.cons_val_three,
      Matrix.vecHead, Matrix.vecTail]

/-- `_multiplyMatrix` preserves the 4th-row invariant. -/
theorem multiplyMatrix_rowFour {A M : Mat4} (hA : rowFourIdentity A)
    (hM : rowFourIdentity M) : rowFourIdentity (multiplyMatrix A M) := by
  obtain ⟨a0, a1, a2, a3⟩ := hA
  obtain ⟨m0, m1, m2, m3⟩ := hM
  refine ⟨?_, ?_, ?_, ?_⟩ <;>
    simp [multiplyMatrix, Fin.sum_univ_four, m0, m1, m2, m3, a0, a1, a2, a3]

/-- `_multiplyMatrix` preserves the 4th-column invariant. -/
theorem multiplyMatrix_colFour {A M : Mat4} (hA : colFourIdentity A)
    (hM : colFourIdentity M) : colFourIdentity (multiplyMatrix A M) := by
  obtain ⟨a0, a1, a2, a3⟩ := hA
  obtain ⟨m0, m1, m2, m3⟩ := hM
  refine ⟨?_, ?_, ?_, ?_⟩ <;>
    simp [multiplyMatrix, Fin.sum_univ_four, m0, m1, m2, m3, a0, a1, a2, a3]

/-- The initial matrix satisfies the 4th-row invariant. -/
theorem identityValue_rowFour : rowFourIdentity identityValue := by
  refine ⟨?_, ?_, ?_, ?_⟩ <;>
    simp [identityValue, Matrix.cons_val_two, Matrix.cons_val_three,
      Matrix.vecHead, Matrix.vecTail]

/-- The initial matrix satisfies the 4th-column invariant. -/
theorem identityValue_colFour : colFourIdentity identityValue := by
  refine ⟨?_, ?_, ?_, ?_⟩ <;>
    simp [identityValue, Matrix.cons_val_two, Matrix.cons_val_three,
      Matrix.vecHead, Matrix.vecTail]

/-- Every adjustment call preserves the 4th-row invariant. -/
theorem applyAdjustment_rowFour (op : Adjustment) (M : Mat4)
    (h : rowFourIdentity M) : rowFourIdentity (applyAdjustment op M) := by
  cases op with
  | hue v =>
    simp only [applyAdjustment, adjustHue]
    split_ifs
    · exact multiplyMatrix_rowFour (hueMatrix_rowFour _ _) h
    · exact h
  | saturation v =>
    simp only [applyAdjustment, adjustSaturation]
    split_ifs
    · exact multiplyMatrix_rowFour (saturationMatrix_rowFour _) h
    · exact h
  | tone r g b =>
    simp only [applyAdjustment, adjustTone]
    split_ifs
    · exact multiplyMatrix_rowFour (toneMatrix_rowFour _ _ _) h
    · exact h

/-- Hue and saturation adjustments preserve the 4th-column invariant. -/
theorem applyAdjustment_colFour (op : Adjustment)
    (hop : op.isHueOrSaturation = true) (M : Mat4) (h : colFourIdentity M) :
    colFourIdentity (applyAdjustment op M) := by
  cases op with
  | hue v =>
    simp only [applyAdjustment, adjustHue]
    split_ifs
    · exact multiplyMatrix_colFour (hueMatrix_colFour _ _) h
    · exact h
  | saturation v =>
    simp only [applyAdjustment, adjustSaturation]
    split_ifs
    · exact multiplyMatrix_colFour (saturationMatrix_colFour _) h
    · exact h
  | tone r g b => simp [Adjustment.isHueOrSaturation] at hop

/-- Any sequence of adjustment calls preserves the 4th-row invariant. -/
theorem applyAdjustments_rowFour (ops : List Adjustment) (M : Mat4)
    (h : rowFourIdentity M) : rowFourIdentity (applyAdjustments ops M) := by
  induction ops generalizing M with
  | nil => exact h
  | cons op rest ih => exact ih _ (applyAdjustment_rowFour op M h)

/-- A sequence of hue/saturation adjustment calls preserves the 4th-column
invariant. -/
theorem applyAdjustments_colFour (ops : List Adjustment)
    (hops : ∀ op ∈ ops, op.isHueOrSaturation = true) (M : Mat4)
    (h : colFourIdentity M) : colFourIdentity (applyAdjustments ops M) := by
  induction ops generalizing M with
  | nil => exact h
  | cons op rest ih =>
    exact ih (fun x hx => hops x (List.mem_cons_of_mem _ hx)) _
      (applyAdjustment_colFour op (hops op (List.mem_cons_self _ _)) M h)

end ToneFilter

namespace ToneSprite

/-- The saturation block never touches the save/restore stack. -/
theorem saturationPass_stack (env : RenderEnv) (sp : ToneSpriteState) (c : Canvas) :
    (saturationPass env sp c).stack = c.stack := by
  rw [saturationPass]
  split_ifs <;>
    simp [Canvas.setCompositeOperation, Canvas.setGlobalAlpha, Canvas.setFillStyle,
      Canvas.fillRect]

/-- The positive-tone block never touches the save/restore stack. -/
theorem lighterPass_stack (env : RenderEnv) (sp : ToneSpriteState) (c : Canvas) :
    (lighterPass env sp c).stack = c.stack := by
  rw [lighterPass]
  split_ifs <;>
    simp [Canvas.setCompositeOperation, Canvas.setGlobalAlpha, Canvas.setFillStyle,
      Canvas.fillRect]

/-- The negative-tone block never touches the save/restore stack. -/
theorem differencePass_stack (env : RenderEnv) (sp : ToneSpriteState) (c : Canvas) :
    (differencePass env sp c).stack = c.stack := by
  rw [differencePass]
  split_ifs <;>
    simp [Canvas.setCompositeOperation, Canvas.setGlobalAlpha, Canvas.setFillStyle,
      Canvas.fillRect, apply_ite Canvas.stack]

/-- The positive-tone block leaves `globalAlpha` unchanged. -/
theorem lighterPass_globalAlpha (env : RenderEnv) (sp : ToneSpriteState) (c : Canvas) :
    (lighterPass env sp c).ctx.globalAlpha = c.ctx.globalAlpha := by
  rw [lighterPass]
  split_ifs <;>
    simp [Canvas.setCompositeOperation, Canvas.setFillStyle, Canvas.fillRect]

/-- The fills recorded by the saturation block. -/
theorem saturationPass_fills (env : RenderEnv) (sp : ToneSpriteState) (c : Canvas) :
    (saturationPass env sp c).fills = c.fills ++
      (if env.canUseSaturationBlend ∧ 0 < sp.gray then
        [{ op := "saturation", alpha := (sp.gray : ℚ) / 255, style := "#ffffff",
           x := 0, y := 0, width := env.width, height := env.height }]
      else []) := by
  rw [saturationPass]
  split_ifs <;>
    simp [Canvas.setCompositeOperation, Canvas.setGlobalAlpha, Canvas.setFillStyle,
      Canvas.fillRect]

/-- The fills recorded by the positive-tone block (its fill inherits the
ambient `globalAlpha`). -/
theorem lighterPass_fills (env : RenderEnv) (sp : ToneSpriteState) (c : Canvas) :
    (lighterPass env sp c).fills = c.fills ++
      (if max 0 sp.red ≠ 0 ∨ max 0 sp.green ≠ 0 ∨ max 0 sp.blue ≠ 0 then
        [{ op := "lighter", alpha := c.ctx.globalAlpha,
           style := rgbToCssColor (max 0 sp.red : ℤ) (max 0 sp.green : ℤ)
             (max 0 sp.blue : ℤ),
           x := 0, y := 0, width := env.width, height := env.height }]
      else []) := by
  rw [lighterPass]
  split_ifs <;>
    simp [Canvas.setCompositeOperation, Canvas.setGlobalAlpha, Canvas.setFillStyle,
      Canvas.fillRect]

/-- The fills recorded by the negative-tone block (all three inherit the
ambient `globalAlpha`). -/
theorem differencePass_fills (env : RenderEnv) (sp : ToneSpriteState) (c : Canvas) :
    (differencePass env sp c).fills = c.fills ++
      (if env.canUseDifferenceBlend ∧
          (max 0 (-sp.red) ≠ 0 ∨ max 0 (-sp.green) ≠ 0 ∨ max 0 (-sp.blue) ≠ 0) then
        [{ op := "difference", alpha := c.ctx.globalAlpha, style := "#ffffff",
           x := 0, y := 0, width := env.width, height := env.height },
         { op := "lighter", alpha := c.ctx.globalAlpha,
           style := rgbToCssColor (max 0 (-sp.red) : ℤ) (max 0 (-sp.green) : ℤ)
             (max 0 (-sp.blue) : ℤ),
           x := 0, y := 0, width := env.width, height := env.height },
         { op := "difference", alpha := c.ctx.globalAlpha, style := "#ffffff",
           x := 0, y := 0, width := env.width, height := env.height }]
      else []) := by
  rw [differencePass]
  split_ifs <;>
    simp_all [Canvas.setCompositeOperation, Canvas.setGlobalAlpha,
      Canvas.setFillStyle, Canvas.fillRect, apply_ite Canvas.fills]

/-- `restore` pops the saved ambient state when the stack is nonempty. -/
theorem restore_eq (c : Canvas) (s : CanvasContextState)
    (rest : List CanvasContextState) (h : c.stack = s :: rest) :
    c.restore = { ctx := s, stack := rest, fills := c.fills } := by
  obtain ⟨ctx, stack, fills⟩ := c
  simp only at h
  subst h
  rfl

/-- On a visible sprite, `_renderCanvas` restores the ambient context and
stack exactly, and its only effect is the fills recorded by the three
blocks. -/
theorem renderCanvas_visible (env : RenderEnv) (sp : ToneSpriteState)
    (canvas : Canvas) (hv : sp.visible = true) :
    renderCanvas env sp canvas =
      { ctx := canvas.ctx, stack := canvas.stack,
        fills := (differencePass env sp
          (lighterPass env sp
            ((saturationPass env sp
              ((canvas.save).setTransform sp.worldTransform.a sp.worldTransform.b
                sp.worldTransform.c sp.worldTransform.d
                (sp.worldTransform.tx * env.resolution)
                (sp.worldTransform.ty * env.resolution))).setGlobalAlpha
              1))).fills } := by
  simp only [renderCanvas, hv, if_true]
  rw [restore_eq _ canvas.ctx canvas.stack]
  rw [differencePass_stack, lighterPass_stack]
  simp [saturationPass_stack, Canvas.setGlobalAlpha, Canvas.save, Canvas.setTransform]

end ToneSprite

/-! ## Claim theorems -/

namespace ToneFilter

/-- C1 (amended): after any sequence of adjustHue/adjustSaturation/adjustTone
calls starting from the identity matrix, the 4th row of the stored matrix is
`[0, 0, 0, 1]`; the 4th column is `[0, 0, 0, 1]` provided the sequence
consists of adjustHue and adjustSaturation calls only (adjustTone writes its
clamped offsets into the first three entries of the 4th column). -/
theorem claim_C1 (ops : List Adjustment) :
    rowFourIdentity (applyAdjustments ops identityValue) ∧
      ((∀ op ∈ ops, op.isHueOrSaturation = true) →
        colFourIdentity (applyAdjustments ops identityValue)) :=
  ⟨applyAdjustments_rowFour ops _ identityValue_rowFour,
   fun hops => applyAdjustments_colFour ops hops _ identityValue_colFour⟩

/-- C1 witness: a concrete hue-then-saturation sequence keeps both the 4th
row and the 4th column at `[0, 0, 0, 1]`. -/
theorem claim_C1_witness :
    rowFourIdentity (applyAdjustments
        [Adjustment.hue 90, Adjustment.saturation 100] identityValue) ∧
      colFourIdentity (applyAdjustments
        [Adjustment.hue 90, Adjustment.saturation 100] identityValue) :=
  ⟨(claim_C1 [Adjustment.hue 90, Adjustment.saturation 100]).1,
   (claim_C1 [Adjustment.hue 90, Adjustment.saturation 100]).2 (by
      intro op hop
      rcases List.mem_cons.mp hop with h | h
      · subst h; rfl
      · rcases List.mem_cons.mp h with h' | h'
        · subst h'; rfl
        · cases h')⟩

/-- C1 counterexample: after the single call `adjustTone(255, 0, 0)` from the
identity matrix, the 4th column is NOT `[0, 0, 0, 1]` (its first entry is 1),
refuting the claimed 4th-column invariant for sequences containing
adjustTone. -/
theorem claim_C1_counterexample :
    ¬ colFourIdentity (applyAdjustments [Adjustment.tone 255 0 0] identityValue) := by
  have e : applyAdjustments [Adjustment.tone 255 0 0] identityValue =
      toneMatrix 1 0 0 := by
    show adjustTone 255 0 0 identityValue = toneMatrix 1 0 0
    simp only [adjustTone]
    rw [if_pos (by norm_num [jsClamp] : jsClamp 255 (-255) 255 / 255 ≠ 0 ∨
        jsClamp 0 (-255) 255 / 255 ≠ 0 ∨ jsClamp 0 (-255) 255 / 255 ≠ 0),
      multiplyMatrix_eq_mul, identityValue_eq_one, one_mul]
    norm_num [jsClamp]
  rw [e]
  intro h
  have h1 := h.1
  simp [toneMatrix, Matrix.cons_val_three, Matrix.vecHead, Matrix.vecTail] at h1

/-- C2 (amended): `_multiplyMatrix(A)` updates the stored matrix to the
row-major product `current × incoming` — the incoming adjustment matrix
right-multiplies the existing matrix (so, under the convention
`output = M × input`, the incoming adjustment is applied to the input before
the previously accumulated transform). -/
theorem claim_C2 (A M : Mat4) : multiplyMatrix A M = M * A :=
  multiplyMatrix_eq_mul A M

/-- C2 counterexample: for the concrete current matrix `toneMatrix 1 0 0`
and incoming matrix `saturationMatrix 2`, the stored result differs from the
claimed product `incoming × current` (entry (0,3) is 1, not 1.787). -/
theorem claim_C2_counterexample :
    multiplyMatrix (saturationMatrix 2) (toneMatrix 1 0 0) ≠
      saturationMatrix 2 * toneMatrix 1 0 0 := by
  intro h
  have h03 := Matrix.ext_iff.mpr h 0 3
  simp [multiplyMatrix, saturationMatrix, toneMatrix, Matrix.mul_apply,
    Fin.sum_univ_four, Matrix.vecHead, Matrix.vecTail] at h03
  norm_num at h03

/-- C5: for every stored matrix and all r, g, b in [-255, 255], calling
`adjustTone(r, g, b)` and then `adjustTone(-r, -g, -b)` restores the matrix
to its original value. -/
theorem claim_C5 (M : Mat4) (r g b : ℝ)
    (hr₁ : -255 ≤ r) (hr₂ : r ≤ 255) (hg₁ : -255 ≤ g) (hg₂ : g ≤ 255)
    (hb₁ : -255 ≤ b) (hb₂ : b ≤ 255) :
    adjustTone (-r) (-g) (-b) (adjustTone r g b M) = M := by
  simp only [adjustTone, jsClamp_eq_self hr₁ hr₂, jsClamp_eq_self hg₁ hg₂,
    jsClamp_eq_self hb₁ hb₂,
    jsClamp_eq_self (by linarith : (-255:ℝ) ≤ -r) (by linarith : -r ≤ 255),
    jsClamp_eq_self (by linarith : (-255:ℝ) ≤ -g) (by linarith : -g ≤ 255),
    jsClamp_eq_self (by linarith : (-255:ℝ) ≤ -b) (by linarith : -b ≤ 255)]
  by_cases hz : r = 0 ∧ g = 0 ∧ b = 0
  · obtain ⟨h1, h2, h3⟩ := hz
    subst h1; subst h2; subst h3
    norm_num
  · have hcond : r / 255 ≠ 0 ∨ g / 255 ≠ 0 ∨ b / 255 ≠ 0 := by
      by_contra hc
      push_neg at hc
      exact hz ⟨by linarith [hc.1], by linarith [hc.2.1], by linarith [hc.2.2]⟩
    have hcond' : -r / 255 ≠ 0 ∨ -g / 255 ≠ 0 ∨ -b / 255 ≠ 0 := by
      rcases hcond with h | h | h
      · exact Or.inl (by intro hc; apply h; linarith)
      · exact Or.inr (Or.inl (by intro hc; apply h; linarith))
      · exact Or.inr (Or.inr (by intro hc; apply h; linarith))
    rw [if_pos hcond, if_pos hcond', multiplyMatrix_eq_mul, multiplyMatrix_eq_mul,
      mul_assoc, toneMatrix_mul]
    have e : toneMatrix (r / 255 + -r / 255) (g / 255 + -g / 255)
        (b / 255 + -b / 255) = (1 : Mat4) := by
      rw [show r / 255 + -r / 255 = (0:ℝ) by ring,
        show g / 255 + -g / 255 = (0:ℝ) by ring,
        show b / 255 + -b / 255 = (0:ℝ) by ring, toneMatrix_zero]
    rw [e, mul_one]

/-- C5 witness: the round trip at `(100, 50, 25)` from the initial matrix. -/
theorem claim_C5_witness :
    adjustTone (-100) (-50) (-25) (adjustTone 100 50 25 identityValue) =
      identityValue :=
  claim_C5 identityValue 100 50 25 (by norm_num) (by norm_num) (by norm_num)
    (by norm_num) (by norm_num) (by norm_num)

set_option maxHeartbeats 1000000 in
/-- C6 (amended): for all degrees d, `adjustHue(d)` then `adjustHue(-d)`
starting from the identity matrix yields a matrix each of whose entries is
within 3/1000 of the identity.  The round trip is not exactly the identity,
even in exact real arithmetic, because the rotation constants are rounded to
three decimals. -/
theorem claim_C6 (d : ℝ) (i j : Fin 4) :
    |adjustHue (-d) (adjustHue d identityValue) i j - identityValue i j|
      ≤ 3 / 1000 := by
  by_cases hd : d = 0
  · subst hd
    norm_num [adjustHue]
  · have hne : d / 180 ≠ 0 := div_ne_zero hd (by norm_num)
    have hne' : -d / 180 ≠ 0 := div_ne_zero (neg_ne_zero.mpr hd) (by norm_num)
    have h1 : adjustHue d identityValue =
        hueMatrix (Real.cos (d / 180 * Real.pi)) (Real.sin (d / 180 * Real.pi)) := by
      simp only [adjustHue]
      rw [if_pos hne, multiplyMatrix_eq_mul, identityValue_eq_one, one_mul]
    have harg : -d / 180 * Real.pi = -(d / 180 * Real.pi) := by ring
    have h2 : adjustHue (-d) (adjustHue d identityValue) =
        multiplyMatrix
          (hueMatrix (Real.cos (d / 180 * Real.pi)) (-Real.sin (d / 180 * Real.pi)))
          (hueMatrix (Real.cos (d / 180 * Real.pi)) (Real.sin (d / 180 * Real.pi))) := by
      rw [h1]
      simp only [adjustHue]
      rw [if_pos hne', harg, Real.cos_neg, Real.sin_neg]
    rw [h2, hueMatrix_roundtrip_decomp]
    have h0 : Real.cos (d / 180 * Real.pi) ^ 2 + Real.sin (d / 180 * Real.pi) ^ 2 - 1
        = 0 := by
      rw [Real.cos_sq_add_sin_sq]; ring
    rw [h0, zero_smul, add_zero]
    have hcs : Real.sin (d / 180 * Real.pi) ^ 2 + Real.cos (d / 180 * Real.pi) ^ 2 = 1 :=
      Real.sin_sq_add_cos_sq _
    have hs1 : -1 ≤ Real.sin (d / 180 * Real.pi) := Real.neg_one_le_sin _
    have hs2 : Real.sin (d / 180 * Real.pi) ≤ 1 := Real.sin_le_one _
    have hc1 : -1 ≤ Real.cos (d / 180 * Real.pi) := Real.neg_one_le_cos _
    have hc2 : Real.cos (d / 180 * Real.pi) ≤ 1 := Real.cos_le_one _
    set s := Real.sin (d / 180 * Real.pi)
    set c := Real.cos (d / 180 * Real.pi)
    fin_cases i <;> fin_cases j <;>
    · simp [Matrix.add_apply, Matrix.smul_apply, smul_eq_mul, identityValue,
        hueDeviationSym, hueDeviationSkew, Matrix.vecHead, Matrix.vecTail]
      first
      | positivity
      | (rw [abs_le]
         constructor <;>
           nlinarith [hcs, sq_nonneg (s + c), sq_nonneg (s - c), sq_nonneg s,
             sq_nonneg c])

set_option maxHeartbeats 1000000 in
/-- C6 counterexample: at d = 90 the round trip provably differs from the
identity matrix (entry (1,2) is -1211/1000000), so the matrix does not
return exactly to the identity; the deviation comes from the rounded
3-decimal constants, not from floating-point arithmetic. -/
theorem claim_C6_counterexample :
    adjustHue (-90) (adjustHue 90 identityValue) ≠ identityValue := by
  have h1 : adjustHue (90 : ℝ) identityValue = hueMatrix 0 1 := by
    simp only [adjustHue]
    rw [if_pos (by norm_num : (90 : ℝ) / 180 ≠ 0),
      show (90 : ℝ) / 180 * Real.pi = Real.pi / 2 by ring,
      Real.cos_pi_div_two, Real.sin_pi_div_two, multiplyMatrix_eq_mul,
      identityValue_eq_one, one_mul]
  have h2 : adjustHue (-90 : ℝ) (hueMatrix 0 1) =
      multiplyMatrix (hueMatrix 0 (-1)) (hueMatrix 0 1) := by
    simp only [adjustHue]
    rw [if_pos (by norm_num : (-90 : ℝ) / 180 ≠ 0),
      show (-90 : ℝ) / 180 * Real.pi = -(Real.pi / 2) by ring,
      Real.cos_neg, Real.sin_neg, Real.cos_pi_div_two, Real.sin_pi_div_two]
  intro h
  rw [h1, h2] at h
  have h12 := Matrix.ext_iff.mpr h 1 2
  simp [multiplyMatrix, hueMatrix, identityValue, Fin.sum_univ_four,
    Matrix.vecHead, Matrix.vecTail] at h12
  norm_num at h12

/-- C7: `adjustSaturation(0)` and `adjustTone(0, 0, 0)` are pure no-ops on
every stored matrix. -/
theorem claim_C7 (M : Mat4) :
    adjustSaturation 0 M = M ∧ adjustTone 0 0 0 M = M := by
  constructor
  · norm_num [adjustSaturation, jsClamp]
  · norm_num [adjustTone, jsClamp]

end ToneFilter

namespace ScreenSprite

/-- C3 (amended): when r, g, b are fixed points of round-and-clamp to
`[0, 255]` (in particular integers in range) and differ from the stored
channels, two successive `setColor(r, g, b)` calls trigger exactly one
repaint request (and one string recomputation): the first call increments
the repaint counter by one and the second call changes nothing.  For other
inputs the guard — which compares the raw arguments with the stored clamped
values — re-triggers on the second call. -/
theorem claim_C3 (st : ScreenSpriteState) (r g b : ℚ)
    (hr : ((jsClampZ (jsRound r) 0 255 : ℤ) : ℚ) = r)
    (hg : ((jsClampZ (jsRound g) 0 255 : ℤ) : ℚ) = g)
    (hb : ((jsClampZ (jsRound b) 0 255 : ℤ) : ℚ) = b)
    (hne : st.red ≠ r ∨ st.green ≠ g ∨ st.blue ≠ b) :
    (setColor st r g b).fillCount = st.fillCount + 1 ∧
      setColor (setColor st r g b) r g b = setColor st r g b := by
  have h1 : setColor st r g b =
      { red := r, green := g, blue := b,
        colorText := rgbToCssColor r g b, fillCount := st.fillCount + 1 } := by
    simp only [setColor]
    rw [if_pos hne, hr, hg, hb]
  refine ⟨by rw [h1], ?_⟩
  rw [h1]
  simp only [setColor]
  rw [if_neg (by simp)]

/-- C3 witness: from the initial (black) state, two `setColor(255, 0, 0)`
calls repaint exactly once. -/
theorem claim_C3_witness :
    (setColor initialState 255 0 0).fillCount = initialState.fillCount + 1 ∧
      setColor (setColor initialState 255 0 0) 255 0 0 =
        setColor initialState 255 0 0 :=
  claim_C3 initialState 255 0 0 (by norm_num [jsClampZ, jsRound])
    (by norm_num [jsClampZ, jsRound]) (by norm_num [jsClampZ, jsRound])
    (Or.inl (by norm_num [initialState, setBlack, setColor, jsClampZ, jsRound]))

/-- C3 counterexample: calling `setColor(300, 0, 0)` twice from the initial
state issues a second repaint request, because the guard compares the raw
argument 300 with the stored clamped value 255; this refutes the claim for
out-of-range inputs. -/
theorem claim_C3_counterexample :
    (setColor (setColor initialState 300 0 0) 300 0 0).fillCount =
      (setColor initialState 300 0 0).fillCount + 1 := by
  norm_num [setColor, initialState, setBlack, jsClampZ, jsRound]

end ScreenSprite

namespace ToneSprite

/-- C8: `setTone(r, g, b, gray)` (missing arguments treated as 0) stores each
channel rounded then clamped to `[-255, 255]` and gray rounded then clamped
to `[0, 255]`; in particular `setTone(300, -300, 0, 400)` stores
`(255, -255, 0, 255)`. -/
theorem claim_C8 (sp : ToneSpriteState) (r g b gray : Option ℚ) :
    ((setTone sp r g b gray).red =
        max (-255) (min 255 (jsRound (r.getD 0))) ∧
      (setTone sp r g b gray).green =
        max (-255) (min 255 (jsRound (g.getD 0))) ∧
      (setTone sp r g b gray).blue =
        max (-255) (min 255 (jsRound (b.getD 0))) ∧
      (setTone sp r g b gray).gray =
        max 0 (min 255 (jsRound (gray.getD 0)))) ∧
    ((setTone sp (some 300) (some (-300)) (some 0) (some 400)).red = 255 ∧
      (setTone sp (some 300) (some (-300)) (some 0) (some 400)).green = -255 ∧
      (setTone sp (some 300) (some (-300)) (some 0) (some 400)).blue = 0 ∧
      (setTone sp (some 300) (some (-300)) (some 0) (some 400)).gray = 255) := by
  refine ⟨⟨?_, ?_, ?_, ?_⟩, ⟨?_, ?_, ?_, ?_⟩⟩ <;>
    · simp only [setTone, Option.getD]
      norm_num [jsClampZ, jsRound]
      try omega

/-- C4: on a visible sprite, the compositing pass records exactly the three
optional stages in source order: the saturation fill (only when supported
and gray > 0, white at alpha gray/255), the lighter fill (only when a
positive channel exists, at alpha 1), and the
difference/lighter/difference triple (only when supported and a negative
channel exists, at alpha 1). -/
theorem claim_C4 (env : RenderEnv) (sp : ToneSpriteState) (canvas : Canvas)
    (hv : sp.visible = true) :
    (renderCanvas env sp canvas).fills =
      canvas.fills
        ++ (if env.canUseSaturationBlend ∧ 0 < sp.gray then
              [{ op := "saturation", alpha := (sp.gray : ℚ) / 255,
                 style := "#ffffff", x := 0, y := 0,
                 width := env.width, height := env.height }]
            else [])
        ++ (if max 0 sp.red ≠ 0 ∨ max 0 sp.green ≠ 0 ∨ max 0 sp.blue ≠ 0 then
              [{ op := "lighter", alpha := 1,
                 style := rgbToCssColor (max 0 sp.red : ℤ) (max 0 sp.green : ℤ)
                   (max 0 sp.blue : ℤ),
                 x := 0, y := 0, width := env.width, height := env.height }]
            else [])
        ++ (if env.canUseDifferenceBlend ∧
              (max 0 (-sp.red) ≠ 0 ∨ max 0 (-sp.green) ≠ 0 ∨
                max 0 (-sp.blue) ≠ 0) then
              [{ op := "difference", alpha := 1, style := "#ffffff",
                 x := 0, y := 0, width := env.width, height := env.height },
               { op := "lighter", alpha := 1,
                 style := rgbToCssColor (max 0 (-sp.red) : ℤ)
                   (max 0 (-sp.green) : ℤ) (max 0 (-sp.blue) : ℤ),
                 x := 0, y := 0, width := env.width, height := env.height },
               { op := "difference", alpha := 1, style := "#ffffff",
                 x := 0, y := 0, width := env.width, height := env.height }]
            else []) := by
  rw [renderCanvas_visible env sp canvas hv]
  show (differencePass _ _ _).fills = _
  rw [differencePass_fills, lighterPass_fills, lighterPass_globalAlpha]
  simp [saturationPass_fills, Canvas.save, Canvas.setTransform,
    Canvas.setGlobalAlpha]

/-- C4 witness: a concrete visible sprite with tone `(-64, 0, 32, 68)` on a
fresh canvas. -/
theorem claim_C4_witness :
    (renderCanvas
        { resolution := 1, width := 816, height := 624,
          canUseSaturationBlend := true, canUseDifferenceBlend := true }
        { red := -64, green := 0, blue := 32, gray := 68, visible := true,
          worldTransform := { a := 1, b := 0, c := 0, d := 1, tx := 0, ty := 0 } }
        { ctx := { transform := (1, 0, 0, 1, 0, 0), globalAlpha := 1,
                   globalCompositeOperation := "source-over",
                   fillStyle := "#000000" },
          stack := [], fills := [] }).fills =
      ([] : List FillRectCall)
        ++ (if (true = true) ∧ (0 : ℤ) < 68 then
              [{ op := "saturation", alpha := ((68 : ℤ) : ℚ) / 255,
                 style := "#ffffff", x := 0, y := 0,
                 width := 816, height := 624 }]
            else [])
        ++ (if max 0 (-64 : ℤ) ≠ 0 ∨ max 0 (0 : ℤ) ≠ 0 ∨ max 0 (32 : ℤ) ≠ 0 then
              [{ op := "lighter", alpha := 1,
                 style := rgbToCssColor (max 0 (-64 : ℤ) : ℤ) (max 0 (0 : ℤ) : ℤ)
                   (max 0 (32 : ℤ) : ℤ),
                 x := 0, y := 0, width := 816, height := 624 }]
            else [])
        ++ (if (true = true) ∧
              (max 0 (-(-64) : ℤ) ≠ 0 ∨ max 0 (-(0) : ℤ) ≠ 0 ∨
                max 0 (-(32) : ℤ) ≠ 0) then
              [{ op := "difference", alpha := 1, style := "#ffffff",
                 x := 0, y := 0, width := 816, height := 624 },
               { op := "lighter", alpha := 1,
                 style := rgbToCssColor (max 0 (-(-64) : ℤ) : ℤ)
                   (max 0 (-(0) : ℤ) : ℤ) (max 0 (-(32) : ℤ) : ℤ),
                 x := 0, y := 0, width := 816, height := 624 },
               { op := "difference", alpha := 1, style := "#ffffff",
                 x := 0, y := 0, width := 816, height := 624 }]
            else []) :=
  claim_C4
    { resolution := 1, width := 816, height := 624,
      canUseSaturationBlend := true, canUseDifferenceBlend := true }
    { red := -64, green := 0, blue := 32, gray := 68, visible := true,
      worldTransform := { a := 1, b := 0, c := 0, d := 1, tx := 0, ty := 0 } }
    { ctx := { transform := (1, 0, 0, 1, 0, 0), globalAlpha := 1,
               globalCompositeOperation := "source-over",
               fillStyle := "#000000" },
      stack := [], fills := [] }
    rfl

/-- C9: when the tone is all zeros (including gray) or the sprite is not
visible, the compositing pass performs zero fill passes and leaves the
canvas completely unchanged. -/
theorem claim_C9 (env : RenderEnv) (sp : ToneSpriteState) (canvas : Canvas)
    (h : (sp.red = 0 ∧ sp.green = 0 ∧ sp.blue = 0 ∧ sp.gray = 0) ∨
      sp.visible = false) :
    renderCanvas env sp canvas = canvas := by
  rcases h with ⟨h1, h2, h3, h4⟩ | h
  · cases hv : sp.visible
    · simp [renderCanvas, hv]
    · rw [renderCanvas_visible env sp canvas hv]
      have hf : (differencePass env sp
          (lighterPass env sp
            ((saturationPass env sp
              ((canvas.save).setTransform sp.worldTransform.a sp.worldTransform.b
                sp.worldTransform.c sp.worldTransform.d
                (sp.worldTransform.tx * env.resolution)
                (sp.worldTransform.ty * env.resolution))).setGlobalAlpha
              1))).fills = canvas.fills := by
        rw [differencePass_fills, lighterPass_fills]
        simp [saturationPass_fills, h1, h2, h3, h4, Canvas.save,
          Canvas.setTransform, Canvas.setGlobalAlpha]
      rw [hf]
  · simp [renderCanvas, h]

/-- C9 witness: an all-zero tone on a concrete visible sprite leaves a
concrete canvas unchanged. -/
theorem claim_C9_witness :
    renderCanvas
        { resolution := 1, width := 816, height := 624,
          canUseSaturationBlend := true, canUseDifferenceBlend := true }
        { red := 0, green := 0, blue := 0, gray := 0, visible := true,
          worldTransform := { a := 1, b := 0, c := 0, d := 1, tx := 0, ty := 0 } }
        { ctx := { transform := (1, 0, 0, 1, 0, 0), globalAlpha := 1,
                   globalCompositeOperation := "source-over",
                   fillStyle := "#000000" },
          stack := [], fills := [] } =
      { ctx := { transform := (1, 0, 0, 1, 0, 0), globalAlpha := 1,
                 globalCompositeOperation := "source-over",
                 fillStyle := "#000000" },
        stack := [], fills := [] } :=
  claim_C9 _ _ _ (Or.inl ⟨rfl, rfl, rfl, rfl⟩)

/-- C10: on a visible sprite the compositing pass restores the ambient
context state (transform, globalAlpha, composite operation, fill style) and
the save/restore stack to their pre-call values, whichever blend passes
ran. -/
theorem claim_C10 (env : RenderEnv) (sp : ToneSpriteState) (canvas : Canvas)
    (hv : sp.visible = true) :
    (renderCanvas env sp canvas).ctx = canvas.ctx ∧
      (renderCanvas env sp canvas).stack = canvas.stack := by
  rw [renderCanvas_visible env sp canvas hv]
  exact ⟨rfl, rfl⟩

/-- C10 witness: a concrete visible sprite with a nontrivial tone restores a
concrete context. -/
theorem claim_C10_witness :
    (renderCanvas
        { resolution := 1, width := 816, height := 624,
          canUseSaturationBlend := true, canUseDifferenceBlend := true }
        { red := -64, green := 0, blue := 32, gray := 68, visible := true,
          worldTransform := { a := 1, b := 0, c := 0, d := 1, tx := 0, ty := 0 } }
        { ctx := { transform := (1, 0, 0, 1, 0, 0), globalAlpha := 1,
                   globalCompositeOperation := "source-over",
                   fillStyle := "#000000" },
          stack := [], fills := [] }).ctx =
      { transform := (1, 0, 0, 1, 0, 0), globalAlpha := 1,
        globalCompositeOperation := "source-over", fillStyle := "#000000" } ∧
      (renderCanvas
        { resolution := 1, width := 816, height := 624,
          canUseSaturationBlend := true, canUseDifferenceBlend := true }
        { red := -64, green := 0, blue := 32, gray := 68, visible := true,
          worldTransform := { a := 1, b := 0, c := 0, d := 1, tx := 0, ty := 0 } }
        { ctx := { transform := (1, 0, 0, 1, 0, 0), globalAlpha := 1,
                   globalCompositeOperation := "source-over",
                   fillStyle := "#000000" },
          stack := [], fills := [] }).stack = [] :=
  claim_C10 _ _ _ rfl

end ToneSprite

end Infernals
